import Mathlib

/-!
Shallow embedding of the elevator dispatch simulation (src/main.cpp).

The C++ program is single-threaded and deterministic; every mutation of an
`Elevator`, a `Panel` or the `ElevatorManager` is modelled by a pure function
returning the updated value together with the list of trace events the call
emits.  Trace events model the observable behaviour the spec reasons about:
the per-floor-step line printed inside `Elevator::simulateMovement`
(line 256), the state-change line printed by `Elevator::setState` (line 225),
and a delivery to an observer performed by `OuterPanel::update` (lines
208-212), reached only through `ElevatorManager::notifyObservers` (lines
176-180).  Pure console banners with no event content (constructor messages,
"Request received", "processing request") are excluded as formatting glue.
-/

/-- Mirrors `enum class Direction { UP, DOWN }` (line 14). -/
inductive Direction
  | UP
  | DOWN
deriving DecidableEq

/-- Mirrors `enum class StateType { IDLE, MOVING_UP, MOVING_DOWN }` (line 15). -/
inductive StateType
  | IDLE
  | MOVING_UP
  | MOVING_DOWN
deriving DecidableEq

/-- One observable event of the simulation.
`floorStep id f` is the per-step print in `Elevator::simulateMovement`;
`stateChange id st` is the print in `Elevator::setState`;
`observerUpdate panelFloor f st` is one `ElevatorObserver::update` delivery. -/
inductive TraceEvent
  | floorStep (id : Int) (floor : Int)
  | stateChange (id : Int) (st : StateType)
  | observerUpdate (panelFloor : Int) (floor : Int) (st : StateType)
deriving DecidableEq

/-- True on a `floorStep` event. -/
def TraceEvent.isFloorStep : TraceEvent → Bool
  | .floorStep _ _ => true
  | _ => false

/-- True on an `observerUpdate` event (a delivery to a registered observer). -/
def TraceEvent.isObserverUpdate : TraceEvent → Bool
  | .observerUpdate _ _ _ => true
  | _ => false

/-- True on a `stateChange` event. -/
def TraceEvent.isStateChange : TraceEvent → Bool
  | .stateChange _ _ => true
  | _ => false

/-- Mirrors the data members of `class Elevator` (lines 53-59): id, current
floor, current state object, and the FIFO `queue<int> floorQueue` (head at the
front of the list).  The `manager` back-pointer carries no state of its own and
is dropped. -/
structure Elevator where
  id : Int
  currentFloor : Int
  state : StateType
  floorQueue : List Int
deriving DecidableEq

namespace Elevator

/-- Mirrors `Elevator::setState` (lines 222-226): replace the state object and
print the state-change line. -/
def setState (e : Elevator) (newState : StateType) : Elevator × List TraceEvent :=
  ({ e with state := newState }, [TraceEvent.stateChange e.id newState])

/-- Dispatch of `state->moveUp()` through the State pattern:
`IdleState::moveUp` and `MovingDownState::moveUp` call
`setState(new MovingUpState)` (lines 263-265, 279-281);
`MovingUpState::moveUp` is a no-op (line 131), so it emits nothing. -/
def stateMoveUp (e : Elevator) : Elevator × List TraceEvent :=
  match e.state with
  | .IDLE => e.setState .MOVING_UP
  | .MOVING_UP => (e, [])
  | .MOVING_DOWN => e.setState .MOVING_UP

/-- Dispatch of `state->moveDown()`: `IdleState::moveDown` and
`MovingUpState::moveDown` call `setState(new MovingDownState)` (lines 267-269,
271-273); `MovingDownState::moveDown` is a no-op (line 141). -/
def stateMoveDown (e : Elevator) : Elevator × List TraceEvent :=
  match e.state with
  | .IDLE => e.setState .MOVING_DOWN
  | .MOVING_UP => e.setState .MOVING_DOWN
  | .MOVING_DOWN => (e, [])

/-- Dispatch of `state->stop()`: `MovingUpState::stop` and
`MovingDownState::stop` call `setState(new IdleState)` (lines 275-277,
283-285); `IdleState::stop` is a no-op (line 124). -/
def stateStop (e : Elevator) : Elevator × List TraceEvent :=
  match e.state with
  | .IDLE => (e, [])
  | .MOVING_UP => e.setState .IDLE
  | .MOVING_DOWN => e.setState .IDLE

end Elevator

/-- The `while (currentFloor != targetFloor)` loop of
`Elevator::simulateMovement` (lines 250-257): step the floor by one toward the
target, printing the per-step line after each move.  Returns the final floor
and the emitted events. -/
def moveLoop (id cur target : Int) : Int × List TraceEvent :=
  if cur = target then (cur, [])
  else if target > cur then
    let r := moveLoop id (cur + 1) target
    (r.1, TraceEvent.floorStep id (cur + 1) :: r.2)
  else
    let r := moveLoop id (cur - 1) target
    (r.1, TraceEvent.floorStep id (cur - 1) :: r.2)
termination_by (target - cur).natAbs
decreasing_by
  · omega
  · omega

namespace Elevator

/-- Mirrors `Elevator::simulateMovement` (lines 249-260): run the step loop,
then `floorQueue.pop()` and `state->stop()`. -/
def simulateMovement (e : Elevator) (targetFloor : Int) : Elevator × List TraceEvent :=
  let m := moveLoop e.id e.currentFloor targetFloor
  let e1 : Elevator :=
    { e with currentFloor := m.1, floorQueue := e.floorQueue.tail }
  let s := e1.stateStop
  (s.1, m.2 ++ s.2)

/-- Mirrors `Elevator::processQueue` (lines 234-247): on an empty queue do
nothing; otherwise peek the head and, when it differs from the current floor,
issue the matching direction request and simulate the movement.  The source has
no branch for `targetFloor == currentFloor`: in that case nothing happens. -/
def processQueue (e : Elevator) : Elevator × List TraceEvent :=
  match e.floorQueue with
  | [] => (e, [])
  | targetFloor :: _ =>
    if targetFloor > e.currentFloor then
      let u := e.stateMoveUp
      let m := u.1.simulateMovement targetFloor
      (m.1, u.2 ++ m.2)
    else if targetFloor < e.currentFloor then
      let d := e.stateMoveDown
      let m := d.1.simulateMovement targetFloor
      (m.1, d.2 ++ m.2)
    else (e, [])

/-- Mirrors `Elevator::addToQueue` (lines 228-232): push the floor to the back
of the queue, then immediately `processQueue()`. -/
def addToQueue (e : Elevator) (floor : Int) : Elevator × List TraceEvent :=
  let e1 : Elevator := { e with floorQueue := e.floorQueue ++ [floor] }
  e1.processQueue

end Elevator

/-- The distance `abs(floor - elevator->getCurrentFloor())` used by
`NearestElevatorStrategy::selectElevator` (lines 88, 91). -/
def distanceTo (floor : Int) (e : Elevator) : Nat :=
  (floor - e.currentFloor).natAbs

/-- One iteration of the `for` loop of
`NearestElevatorStrategy::selectElevator` (lines 90-112), threading the
accumulator `(nearestElevator, shortestDistance)`.  The idle branch `continue`s
past the direction branches, which the if/else-if chain reproduces. -/
def selectStep (floor : Int) (direction : Direction)
    (acc : Elevator × Nat) (e : Elevator) : Elevator × Nat :=
  if e.state = StateType.IDLE ∧ distanceTo floor e < acc.2 then
    (e, distanceTo floor e)
  else if direction = Direction.UP ∧ e.state = StateType.MOVING_UP ∧
      e.currentFloor < floor ∧ distanceTo floor e < acc.2 then
    (e, distanceTo floor e)
  else if direction = Direction.DOWN ∧ e.state = StateType.MOVING_DOWN ∧
      e.currentFloor > floor ∧ distanceTo floor e < acc.2 then
    (e, distanceTo floor e)
  else
    acc

/-- Mirrors `NearestElevatorStrategy::selectElevator` (lines 84-115): `none`
on an empty vector, otherwise start from `elevators[0]` and scan every
elevator (the C++ loop revisits `elevators[0]` too). -/
def selectElevator (floor : Int) (direction : Direction) :
    List Elevator → Option Elevator
  | [] => none
  | first :: rest =>
    some ((List.foldl (selectStep floor direction)
      (first, distanceTo floor first) (first :: rest)).1)

/-- Mirrors the data members of `class OuterPanel` (lines 190-196): its floor
and the floor it currently displays.  The `currentDirection` member is never
written or read and the manager back-pointer carries no state. -/
structure Panel where
  floor : Int
  currentDisplayFloor : Int
deriving DecidableEq

/-- Mirrors `OuterPanel::update` (lines 208-212): record the floor on the
display and emit the observer-delivery line. -/
def Panel.update (p : Panel) (floor : Int) (st : StateType) :
    Panel × List TraceEvent :=
  ({ p with currentDisplayFloor := floor },
   [TraceEvent.observerUpdate p.floor floor st])

/-- Mirrors `ElevatorManager::notifyObservers` (lines 176-180): call
`observer->update(floor, state)` on every registered observer in registration
order.  In the program the registered observers are the panels added by
`addPanel` (lines 288-291).  Note: no code in src/main.cpp ever invokes this
function. -/
def notifyObservers (floor : Int) (st : StateType) :
    List Panel → List Panel × List TraceEvent
  | [] => ([], [])
  | p :: rest =>
    let u := p.update floor st
    let r := notifyObservers floor st rest
    (u.1 :: r.1, u.2 ++ r.2)

/-- Mirrors the registries of `class ElevatorManager` (lines 147-152): the
elevator vector and the observer list (the panels; `addPanel` pushes each panel
into both `panels` and `observers`, so one list models both). -/
structure ElevatorManager where
  elevators : List Elevator
  panels : List Panel
deriving DecidableEq

/-- Replace the first list entry equal to `old` by `upd`.  Models the in-place
mutation, through the selected pointer, of the elevator stored in the
manager's vector: the strategy's `nearestElevator` pointer always refers to
the first vector entry whose observable fields match, since a later entry with
equal fields has equal distance and the strategy only replaces its candidate
on a strictly smaller distance. -/
def replaceFirst (old upd : Elevator) : List Elevator → List Elevator
  | [] => []
  | e :: rest => if e = old then upd :: rest else e :: replaceFirst old upd rest

/-- Mirrors `ElevatorManager::addToQueue` (lines 168-174), the coordinator's
`submitCall`: run the selection strategy over the registered elevators; if an
elevator is chosen, forward `addToQueue(floor)` to it; otherwise do nothing. -/
def ElevatorManager.submitCall (mgr : ElevatorManager) (floor : Int)
    (direction : Direction) : ElevatorManager × List TraceEvent :=
  match selectElevator floor direction mgr.elevators with
  | none => (mgr, [])
  | some sel =>
    let r := sel.addToQueue floor
    ({ mgr with elevators := replaceFirst sel r.1 mgr.elevators }, r.2)

/-- The three operations driving the motion state machine (spec §4.1):
`requestUp` = `moveUp()`, `requestDown` = `moveDown()`,
`requestStop` = `stop()`. -/
inductive Op
  | requestUp
  | requestDown
  | requestStop
deriving DecidableEq

/-- The pure state transition the C++ State classes implement: which
`StateType` the elevator's state object has after dispatching the operation
(lines 119-144 and 262-285; the no-op branches keep the state). -/
def codeTransition (s : StateType) : Op → StateType
  | .requestUp =>
    match s with
    | .IDLE => .MOVING_UP
    | .MOVING_UP => .MOVING_UP
    | .MOVING_DOWN => .MOVING_UP
  | .requestDown =>
    match s with
    | .IDLE => .MOVING_DOWN
    | .MOVING_UP => .MOVING_DOWN
    | .MOVING_DOWN => .MOVING_DOWN
  | .requestStop =>
    match s with
    | .IDLE => .IDLE
    | .MOVING_UP => .IDLE
    | .MOVING_DOWN => .IDLE

/-- Modelled from the spec: the transition table of §4.1, row by row
(Idle: requestUp → MovingUp, requestDown → MovingDown, requestStop no-op;
MovingUp: requestUp no-op, requestDown → MovingDown, requestStop → Idle;
MovingDown: requestUp → MovingUp, requestDown no-op, requestStop → Idle).
Stated separately from `codeTransition` so the two can be compared. -/
def specTransitionTable (s : StateType) (op : Op) : StateType :=
  match s, op with
  | .IDLE, .requestUp => .MOVING_UP
  | .IDLE, .requestDown => .MOVING_DOWN
  | .IDLE, .requestStop => .IDLE
  | .MOVING_UP, .requestUp => .MOVING_UP
  | .MOVING_UP, .requestDown => .MOVING_DOWN
  | .MOVING_UP, .requestStop => .IDLE
  | .MOVING_DOWN, .requestUp => .MOVING_UP
  | .MOVING_DOWN, .requestDown => .MOVING_DOWN
  | .MOVING_DOWN, .requestStop => .IDLE

/-- Run a sequence of state-machine operations from a starting state through
the code's transitions. -/
def runOps (s : StateType) (ops : List Op) : StateType :=
  ops.foldl codeTransition s

/-- The floors visited, in order, by the step loop from `cur` to `target`:
`cur+1, cur+2, …, target` going up, `cur-1, …, target` going down. -/
def pathFloors (cur target : Int) : List Int :=
  if target ≥ cur then
    (List.range (target - cur).toNat).map (fun (i : Nat) => cur + ((i : Int) + 1))
  else
    (List.range (cur - target).toNat).map (fun (i : Nat) => cur - ((i : Int) + 1))

/-- The floor carried by a `floorStep` event, none on any other event. -/
def stepFloorOf : TraceEvent → Option Int
  | .floorStep _ f => some f
  | _ => none

/-- The floors carried by the `floorStep` events of a trace, in order. -/
def stepFloors (tr : List TraceEvent) : List Int :=
  tr.filterMap stepFloorOf

/-! ### Helper lemmas -/

theorem pathFloors_self (cur : Int) : pathFloors cur cur = [] := by
  simp [pathFloors]

theorem pathFloors_up (cur target : Int) (h : cur < target) :
    pathFloors cur target = (cur + 1) :: pathFloors (cur + 1) target := by
  unfold pathFloors
  rw [if_pos (by omega), if_pos (by omega)]
  have h1 : (target - cur).toNat = (target - (cur + 1)).toNat + 1 := by omega
  rw [h1, List.range_succ_eq_map, List.map_cons, List.map_map]
  refine congrArg₂ List.cons ?_ (List.map_congr_left ?_)
  · omega
  · intro i _
    simp only [Function.comp, Nat.succ_eq_add_one]
    push_cast
    ring

theorem pathFloors_down (cur target : Int) (h : target < cur) :
    pathFloors cur target = (cur - 1) :: pathFloors (cur - 1) target := by
  rcases eq_or_lt_of_le (show target ≤ cur - 1 by omega) with heq | hlt
  · unfold pathFloors
    rw [if_neg (by omega), if_pos (by omega)]
    have h1 : (cur - target).toNat = 1 := by omega
    have h2 : (target - (cur - 1)).toNat = 0 := by omega
    rw [h1, h2]
    norm_num [List.range_succ]
  · unfold pathFloors
    rw [if_neg (by omega), if_neg (by omega)]
    have h1 : (cur - target).toNat = (cur - 1 - target).toNat + 1 := by omega
    rw [h1, List.range_succ_eq_map, List.map_cons, List.map_map]
    refine congrArg₂ List.cons ?_ (List.map_congr_left ?_)
    · omega
    · intro i _
      simp only [Function.comp, Nat.succ_eq_add_one]
      push_cast
      ring

theorem moveLoop_eq (id cur target : Int) :
    moveLoop id cur target =
      (target, (pathFloors cur target).map (TraceEvent.floorStep id)) := by
  have H : ∀ (n : Nat) (cur : Int), (target - cur).natAbs = n →
      moveLoop id cur target =
        (target, (pathFloors cur target).map (TraceEvent.floorStep id)) := by
    intro n
    induction n using Nat.strong_induction_on with
    | _ n ih =>
      intro cur hn
      rw [moveLoop]
      by_cases hct : cur = target
      · subst hct
        rw [if_pos rfl, pathFloors_self]
        rfl
      · rw [if_neg hct]
        by_cases hgt : target > cur
        · rw [if_pos hgt,
            ih ((target - (cur + 1)).natAbs) (by omega) (cur + 1) rfl,
            pathFloors_up cur target (by omega)]
          rfl
        · rw [if_neg hgt,
            ih ((target - (cur - 1)).natAbs) (by omega) (cur - 1) rfl,
            pathFloors_down cur target (by omega)]
          rfl
  exact H ((target - cur).natAbs) cur rfl

theorem pathFloors_length (cur target : Int) :
    (pathFloors cur target).length = (target - cur).natAbs := by
  unfold pathFloors
  split <;> simp <;> omega

theorem stepFloors_map_floorStep (id : Int) (l : List Int) :
    stepFloors (l.map (TraceEvent.floorStep id)) = l := by
  induction l with
  | nil => rfl
  | cons a l ih =>
    simpa [stepFloors, stepFloorOf, List.filterMap_cons] using ih

theorem filterMap_comp_stepFloorOf (id : Int) (l : List Int) :
    List.filterMap (stepFloorOf ∘ TraceEvent.floorStep id) l = l := by
  induction l with
  | nil => rfl
  | cons a l ih =>
    simp [stepFloorOf, Function.comp, List.filterMap_cons, ih]

theorem countP_comp_isFloorStep (id : Int) (l : List Int) :
    List.countP (TraceEvent.isFloorStep ∘ TraceEvent.floorStep id) l = l.length := by
  induction l with
  | nil => rfl
  | cons a l ih =>
    simp [List.countP_cons, TraceEvent.isFloorStep, Function.comp, ih]

theorem stepFloors_append (l1 l2 : List TraceEvent) :
    stepFloors (l1 ++ l2) = stepFloors l1 ++ stepFloors l2 := by
  simp [stepFloors, List.filterMap_append]

theorem stepFloors_stateChange (id : Int) (st : StateType) :
    stepFloors [TraceEvent.stateChange id st] = [] := rfl

theorem countP_isFloorStep_map (id : Int) (l : List Int) :
    (l.map (TraceEvent.floorStep id)).countP TraceEvent.isFloorStep = l.length := by
  induction l with
  | nil => rfl
  | cons a l ih =>
    simp [List.countP_cons, TraceEvent.isFloorStep, ih]

theorem selectStep_of_not_lt (floor : Int) (direction : Direction)
    (acc : Elevator × Nat) (e : Elevator) (h : ¬ distanceTo floor e < acc.2) :
    selectStep floor direction acc e = acc := by
  unfold selectStep
  rw [if_neg (fun hc => h hc.2), if_neg (fun hc => h hc.2.2.2),
    if_neg (fun hc => h hc.2.2.2)]

theorem selectStep_idle_lt (floor : Int) (direction : Direction)
    (acc : Elevator × Nat) (e : Elevator) (h1 : e.state = StateType.IDLE)
    (h2 : distanceTo floor e < acc.2) :
    selectStep floor direction acc e = (e, distanceTo floor e) := by
  unfold selectStep
  rw [if_pos ⟨h1, h2⟩]

theorem moveLoop_eval_one_three :
    moveLoop 1 1 3 = (3, [TraceEvent.floorStep 1 2, TraceEvent.floorStep 1 3]) := by
  rw [moveLoop_eq]
  decide

theorem addToQueue_eval_one_three :
    (Elevator.mk 1 1 StateType.IDLE []).addToQueue 3 =
      (Elevator.mk 1 3 StateType.IDLE [],
       [TraceEvent.stateChange 1 StateType.MOVING_UP, TraceEvent.floorStep 1 2,
        TraceEvent.floorStep 1 3, TraceEvent.stateChange 1 StateType.IDLE]) := by
  simp only [Elevator.addToQueue, Elevator.processQueue, Elevator.stateMoveUp,
    Elevator.setState, Elevator.simulateMovement, Elevator.stateStop]
  norm_num [moveLoop_eval_one_three]

theorem codeTransition_eq_specTable (s : StateType) (op : Op) :
    codeTransition s op = specTransitionTable s op := by
  cases s <;> cases op <;> rfl

/-! ### Claim theorems -/

/-- Claim C1, divergence shown at a failing input: the trip of elevator 1 from
floor 1 to floor 3 emits exactly |3-1| = 2 floor-step events in its trace, but
zero events are delivered to the observer-notification path, because no code in
src/main.cpp ever invokes `ElevatorManager::notifyObservers`; the claim says
the two MovingUp floor-step events plus one terminal Idle event reach the
registered observers. -/
theorem c1_trip_events_never_reach_observers :
    ((Elevator.mk 1 1 StateType.IDLE []).addToQueue 3).2.countP
        TraceEvent.isFloorStep = 2 ∧
    ((Elevator.mk 1 1 StateType.IDLE []).addToQueue 3).2.countP
        TraceEvent.isObserverUpdate = 0 ∧
    ((Elevator.mk 1 1 StateType.IDLE []).addToQueue 3).1 =
      Elevator.mk 1 3 StateType.IDLE [] := by
  rw [addToQueue_eval_one_three]
  decide

/-- Claim C2, divergence shown at a failing input: enqueueing floor 1 on an
idle elevator already at floor 1 leaves the queue entry in place (nothing is
popped), emits no event at all (so no Idle event either), and issues no stop;
`Elevator::processQueue` has no branch for `targetFloor == currentFloor`. -/
theorem c2_degenerate_request_not_consumed :
    ((Elevator.mk 2 1 StateType.IDLE []).addToQueue 1).1 =
      Elevator.mk 2 1 StateType.IDLE [1] ∧
    ((Elevator.mk 2 1 StateType.IDLE []).addToQueue 1).2 = [] := by
  decide

/-- Claim C3: starting from Idle, every finite sequence of
requestUp/requestDown/requestStop operations drives the code's state machine
exactly along the §4.1 transition table, and the reached state is always one
of Idle, MovingUp, MovingDown. -/
theorem c3_state_machine_matches_spec_table (ops : List Op) :
    runOps StateType.IDLE ops =
      List.foldl specTransitionTable StateType.IDLE ops ∧
    (runOps StateType.IDLE ops = StateType.IDLE ∨
      runOps StateType.IDLE ops = StateType.MOVING_UP ∨
      runOps StateType.IDLE ops = StateType.MOVING_DOWN) := by
  constructor
  · have H : ∀ s : StateType,
        List.foldl codeTransition s ops = List.foldl specTransitionTable s ops := by
      induction ops with
      | nil =>
        intro s
        rfl
      | cons op ops ih =>
        intro s
        simp only [List.foldl_cons, codeTransition_eq_specTable]
        exact ih _
    exact H _
  · cases runOps StateType.IDLE ops
    · exact Or.inl rfl
    · exact Or.inr (Or.inl rfl)
    · exact Or.inr (Or.inr rfl)

/-- Claim C4, divergence shown at a failing input: after enqueueing floor 3
twice on an elevator starting at floor 1, the first occurrence is serviced but
the second occurrence is never serviced: it remains in the queue for ever (no
event is emitted while processing it), because the head equal to the current
floor is neither driven nor popped. -/
theorem c4_second_duplicate_never_serviced :
    (((Elevator.mk 1 1 StateType.IDLE []).addToQueue 3).1.addToQueue 3).1 =
      Elevator.mk 1 3 StateType.IDLE [3] ∧
    (((Elevator.mk 1 1 StateType.IDLE []).addToQueue 3).1.addToQueue 3).2 = [] := by
  rw [addToQueue_eval_one_three]
  decide

/-- Claim C5, counterexample: with the call (floor 4, Up) and the candidate
list holding first a MovingUp unit at floor 2 (distance 2, below the call) and
then an Idle unit at floor 6 (distance 2), the strategy selects the moving
unit, not the idle one: all branches compare distances strictly, so at equal
distance the initial candidate `elevators[0]` survives. -/
theorem c5_counterexample_moving_beats_idle_at_tie :
    distanceTo 4 (Elevator.mk 1 2 StateType.MOVING_UP []) =
      distanceTo 4 (Elevator.mk 2 6 StateType.IDLE []) ∧
    (Elevator.mk 1 2 StateType.MOVING_UP []).currentFloor < 4 ∧
    selectElevator 4 Direction.UP
      [Elevator.mk 1 2 StateType.MOVING_UP [],
       Elevator.mk 2 6 StateType.IDLE []] =
      some (Elevator.mk 1 2 StateType.MOVING_UP []) := by
  decide

/-- Claim C5 as amended: in a two-unit candidate list, at equal distance the
first-listed unit is selected whatever the states are; an idle unit listed
second is selected over the first unit only when its distance is strictly
smaller. -/
theorem c5_amended_equal_distance_first_wins (a b : Elevator) (floor : Int)
    (direction : Direction) :
    (distanceTo floor a = distanceTo floor b →
      selectElevator floor direction [a, b] = some a) ∧
    (b.state = StateType.IDLE → distanceTo floor b < distanceTo floor a →
      selectElevator floor direction [a, b] = some b) := by
  have h1 : selectStep floor direction (a, distanceTo floor a) a =
      (a, distanceTo floor a) := by
    refine selectStep_of_not_lt floor direction (a, distanceTo floor a) a ?_
    show ¬ distanceTo floor a < distanceTo floor a
    omega
  constructor
  · intro hd
    have h2 : selectStep floor direction (a, distanceTo floor a) b =
        (a, distanceTo floor a) := by
      refine selectStep_of_not_lt floor direction (a, distanceTo floor a) b ?_
      show ¬ distanceTo floor b < distanceTo floor a
      omega
    unfold selectElevator
    simp only [List.foldl_cons, List.foldl_nil, h1, h2]
  · intro hb hlt
    have h2 : selectStep floor direction (a, distanceTo floor a) b =
        (b, distanceTo floor b) := by
      refine selectStep_idle_lt floor direction (a, distanceTo floor a) b hb ?_
      show distanceTo floor b < distanceTo floor a
      exact hlt
    unfold selectElevator
    simp only [List.foldl_cons, List.foldl_nil, h1, h2]

/-- Witness for the amended claim C5: at call floor 10, a MovingUp unit at
floor 8 listed first ties with an Idle unit at floor 12 and wins; an Idle unit
at floor 9 listed second beats an Idle unit at floor 13 listed first. -/
theorem c5_amended_equal_distance_first_wins_witness :
    selectElevator 10 Direction.UP
      [Elevator.mk 1 8 StateType.MOVING_UP [],
       Elevator.mk 2 12 StateType.IDLE []] =
      some (Elevator.mk 1 8 StateType.MOVING_UP []) ∧
    selectElevator 10 Direction.UP
      [Elevator.mk 1 13 StateType.IDLE [],
       Elevator.mk 2 9 StateType.IDLE []] =
      some (Elevator.mk 2 9 StateType.IDLE []) :=
  ⟨(c5_amended_equal_distance_first_wins (Elevator.mk 1 8 StateType.MOVING_UP [])
      (Elevator.mk 2 12 StateType.IDLE []) 10 Direction.UP).1 (by decide),
   (c5_amended_equal_distance_first_wins (Elevator.mk 1 13 StateType.IDLE [])
      (Elevator.mk 2 9 StateType.IDLE []) 10 Direction.UP).2 rfl (by decide)⟩

/-- Claim C6, divergence shown at a failing input: with one idle elevator
registered at floor 1, submitting the call (floor 1, Up) returns with the
chosen unit's queue still holding the pending entry [1], not empty: the
degenerate head is never processed, so the coordinator does not drive the
queue to completion before returning. -/
theorem c6_submitCall_returns_with_pending_queue :
    ((ElevatorManager.mk [Elevator.mk 1 1 StateType.IDLE []] []).submitCall
        1 Direction.UP).1.elevators =
      [Elevator.mk 1 1 StateType.IDLE [1]] ∧
    (Elevator.mk 1 1 StateType.IDLE [1]).floorQueue ≠ [] := by
  decide

/-- Claim C7: a call submitted to a coordinator with an empty unit registry
makes the selection strategy return none and is dropped with no change to any
registry and no emitted event. -/
theorem c7_empty_registry_call_dropped (mgr : ElevatorManager) (floor : Int)
    (direction : Direction) (h : mgr.elevators = []) :
    selectElevator floor direction mgr.elevators = none ∧
    mgr.submitCall floor direction = (mgr, []) := by
  have hsel : selectElevator floor direction mgr.elevators = none := by
    rw [h]
    rfl
  refine ⟨hsel, ?_⟩
  unfold ElevatorManager.submitCall
  rw [hsel]

/-- Witness for claim C7: the concrete empty coordinator with the spec's
scenario call (floor 5, Up). -/
theorem c7_empty_registry_call_dropped_witness :
    selectElevator 5 Direction.UP (ElevatorManager.mk [] []).elevators = none ∧
    (ElevatorManager.mk [] []).submitCall 5 Direction.UP =
      (ElevatorManager.mk [] [], []) :=
  c7_empty_registry_call_dropped (ElevatorManager.mk [] []) 5 Direction.UP rfl

/-- Claim C8: one invocation of the coordinator's notify(floor, state) with N
registered observers delivers exactly one update per registered observer, in
registration order, each carrying exactly (floor, state); every panel display
is set to that floor. -/
theorem c8_notify_fanout_in_order (floor : Int) (st : StateType)
    (panels : List Panel) :
    (notifyObservers floor st panels).2 =
      panels.map (fun p => TraceEvent.observerUpdate p.floor floor st) ∧
    (notifyObservers floor st panels).1 =
      panels.map (fun p => { p with currentDisplayFloor := floor }) := by
  induction panels with
  | nil => exact ⟨rfl, rfl⟩
  | cons p ps ih =>
    simp only [notifyObservers, Panel.update, List.map_cons,
      List.singleton_append]
    exact ⟨by rw [ih.1], by rw [ih.2]⟩

/-- Claim C9: for every starting elevator with a non-empty queue and every
target floor, simulateMovement terminates with the current floor equal to the
target, the queue head popped, the state machine left Idle, the per-step
events visiting exactly the single-unit steps from the start floor to the
target, |target - start| of them. -/
theorem c9_simulateMovement_completes (e : Elevator) (target : Int)
    (x : Int) (xs : List Int) (h : e.floorQueue = x :: xs) :
    (e.simulateMovement target).1.currentFloor = target ∧
    (e.simulateMovement target).1.floorQueue = xs ∧
    (e.simulateMovement target).1.state = StateType.IDLE ∧
    stepFloors (e.simulateMovement target).2 = pathFloors e.currentFloor target ∧
    (e.simulateMovement target).2.countP TraceEvent.isFloorStep =
      (target - e.currentFloor).natAbs := by
  unfold Elevator.simulateMovement
  rw [moveLoop_eq]
  cases hs : e.state <;>
    simp [Elevator.stateStop, Elevator.setState, h, hs, stepFloors_append,
      stepFloors_map_floorStep, stepFloors_stateChange, List.countP_append,
      countP_isFloorStep_map, pathFloors_length, List.countP_cons,
      TraceEvent.isFloorStep, filterMap_comp_stepFloorOf, countP_comp_isFloorStep]

/-- Witness for claim C9: a MovingUp elevator at floor 1 with queue [3] driven
to floor 3. -/
theorem c9_simulateMovement_completes_witness :
    ((Elevator.mk 1 1 StateType.MOVING_UP [3]).simulateMovement 3).1.currentFloor = 3 ∧
    ((Elevator.mk 1 1 StateType.MOVING_UP [3]).simulateMovement 3).1.floorQueue = [] ∧
    ((Elevator.mk 1 1 StateType.MOVING_UP [3]).simulateMovement 3).1.state =
      StateType.IDLE ∧
    stepFloors ((Elevator.mk 1 1 StateType.MOVING_UP [3]).simulateMovement 3).2 =
      pathFloors (Elevator.mk 1 1 StateType.MOVING_UP [3]).currentFloor 3 ∧
    ((Elevator.mk 1 1 StateType.MOVING_UP [3]).simulateMovement 3).2.countP
      TraceEvent.isFloorStep =
      (3 - (Elevator.mk 1 1 StateType.MOVING_UP [3]).currentFloor).natAbs :=
  c9_simulateMovement_completes (Elevator.mk 1 1 StateType.MOVING_UP [3]) 3 3 [] rfl

/-- Claim C10: on every non-empty candidate list the reference selection
strategy returns some unit, never none. -/
theorem c10_nonempty_always_selects (floor : Int) (direction : Direction)
    (units : List Elevator) (h : units ≠ []) :
    (selectElevator floor direction units).isSome = true := by
  cases units with
  | nil => exact absurd rfl h
  | cons a l => rfl

/-- Witness for claim C10: a singleton registry. -/
theorem c10_nonempty_always_selects_witness :
    (selectElevator 7 Direction.DOWN [Elevator.mk 1 1 StateType.IDLE []]).isSome =
      true :=
  c10_nonempty_always_selects 7 Direction.DOWN
    [Elevator.mk 1 1 StateType.IDLE []] (by decide)
